import Mathlib

/-!
Verification of the tax-document-input validation and formatting core.

The definitions below are a shallow embedding of the JavaScript source:
  * `src/validators/Validator.js`          → `Validator.validate`, `RuleSet`
  * `src/validators/rules/BrazilRules.js`  → `cpf`, `cnpj`
  * PortugalRules (v1.0.1, the variant bundled in
    `src/managers/ValidationManager.js`)   → `nif`, `nipc`, `getEntityType`
  * `src/validators/rules/USARules.js`     → `ssn`, `ein`
  * FormatManager (bundled in `src/managers/ValidationManager.js`)
                                           → `detectDocumentType`, `applyMask`,
                                             `calculateCursorPosition`
  * `src/CountriesData.js`                 → `brDocuments`, `ptDocuments`, `usDocuments`

JavaScript objects holding validation details are modelled as ordered
association lists of `JVal` values; `null` is modelled as `Option.none`.
JS strings are modelled as Lean `String`s; `replace(/\D/g, '')` is
`stripDigits` (filtering on `Char.isDigit`, i.e. the characters 0-9).
-/

/-- A JavaScript value appearing in a validation `details` object. -/
inductive JVal where
  | str : String → JVal
  | num : Nat → JVal
  | obj : List (String × JVal) → JVal
  | arr : List JVal → JVal

/-- The result object returned by every per-country validator:
`isValid`, `error` (null or a string) and `details` (null or an object). -/
structure ValidationResult where
  isValid : Bool
  error : Option String
  details : Option (List (String × JVal))

/-- `s.replace(/\D/g, '')` — keep only the decimal digit characters. -/
def stripDigits (s : String) : List Char :=
  s.data.filter Char.isDigit

/-- Numeric value of a digit character (`parseInt` of a one-digit string). -/
def digitVal (c : Char) : Nat := c.toNat - 48

/-- The regex `/^(\d)\1{n}$/` on an already digit-only string:
all characters equal to the first. -/
def allSame : List Char → Bool
  | [] => true
  | c :: rest => rest.all (fun x => x = c)

/-- `str.slice(a, b)` on a digit-only string viewed as a char list. -/
def seg (ds : List Char) (a b : Nat) : String :=
  String.mk ((ds.drop a).take (b - a))

/-- The weighted sum `Σ parseInt(s.charAt(i)) * w[i]` computed by the
validators' `for` loops (the loop length is the weight list's length). -/
def weightedSum (ds : List Char) (weights : List Nat) : Nat :=
  (List.zipWith (fun c w => digitVal c * w) ds weights).sum

/-- The mod-11 check-digit rule shared by CPF/CNPJ/NIF/NIPC:
`remainder = sum % 11; digit = remainder < 2 ? 0 : 11 - remainder`. -/
def checkDigit (sum : Nat) : Nat :=
  let remainder := sum % 11
  if remainder < 2 then 0 else 11 - remainder

/-- The CPF success template `XXX.XXX.XXX-XX` over an 11-digit list. -/
def cpfFormatted (ds : List Char) : String :=
  seg ds 0 3 ++ "." ++ seg ds 3 6 ++ "." ++ seg ds 6 9 ++ "-" ++ seg ds 9 11

/-- The CNPJ success template `XX.XXX.XXX/XXXX-XX` over a 14-digit list. -/
def cnpjFormatted (ds : List Char) : String :=
  seg ds 0 2 ++ "." ++ seg ds 2 5 ++ "." ++ seg ds 5 8 ++ "/" ++ seg ds 8 12 ++ "-" ++ seg ds 12 14

/-- The NIF/NIPC success template `XXX XXX XXX` over a 9-digit list. -/
def ptFormatted (ds : List Char) : String :=
  seg ds 0 3 ++ " " ++ seg ds 3 6 ++ " " ++ seg ds 6 9

/-- The SSN success template `AAA-GG-SSSS` over a 9-digit list. -/
def ssnFormatted (ds : List Char) : String :=
  seg ds 0 3 ++ "-" ++ seg ds 3 5 ++ "-" ++ seg ds 5 9

/-- The EIN success template `PP-SSSSSSS` over a 9-digit list. -/
def einFormatted (ds : List Char) : String :=
  seg ds 0 2 ++ "-" ++ seg ds 2 9

/-- BrazilRules.cpf. -/
def cpf (input : String) : ValidationResult :=
  let ds := stripDigits input
  if ds.length ≠ 11 then
    ⟨false, some "CPF deve conter exatamente 11 dígitos",
      some [("length", .num ds.length), ("expected", .num 11)]⟩
  else if allSame ds then
    ⟨false, some "CPF não pode ter todos os dígitos iguais",
      some [("pattern", .str "repeated_digits")]⟩
  else
    let sum1 := weightedSum ds [10, 9, 8, 7, 6, 5, 4, 3, 2]
    let digit1 := checkDigit sum1
    if digit1 ≠ digitVal (ds.getD 9 ' ') then
      ⟨false, some "Primeiro dígito verificador inválido",
        some [("calculated", .num digit1), ("provided", .num (digitVal (ds.getD 9 ' '))),
              ("sum", .num sum1), ("remainder", .num (sum1 % 11))]⟩
    else
      let sum2 := weightedSum ds [11, 10, 9, 8, 7, 6, 5, 4, 3, 2]
      let digit2 := checkDigit sum2
      if digit2 ≠ digitVal (ds.getD 10 ' ') then
        ⟨false, some "Segundo dígito verificador inválido",
          some [("calculated", .num digit2), ("provided", .num (digitVal (ds.getD 10 ' '))),
                ("sum", .num sum2), ("remainder", .num (sum2 % 11))]⟩
      else
        ⟨true, none,
          some [("formatted", .str (cpfFormatted ds)),
                ("type", .str "personal"), ("country", .str "BR")]⟩

/-- BrazilRules.cnpj. -/
def cnpj (input : String) : ValidationResult :=
  let ds := stripDigits input
  if ds.length ≠ 14 then
    ⟨false, some "CNPJ deve conter exatamente 14 dígitos",
      some [("length", .num ds.length), ("expected", .num 14)]⟩
  else if allSame ds then
    ⟨false, some "CNPJ não pode ter todos os dígitos iguais",
      some [("pattern", .str "repeated_digits")]⟩
  else
    let sum1 := weightedSum ds [5, 4, 3, 2, 9, 8, 7, 6, 5, 4, 3, 2]
    let digit1 := checkDigit sum1
    if digit1 ≠ digitVal (ds.getD 12 ' ') then
      ⟨false, some "Primeiro dígito verificador inválido",
        some [("calculated", .num digit1), ("provided", .num (digitVal (ds.getD 12 ' '))),
              ("sum", .num sum1), ("remainder", .num (sum1 % 11))]⟩
    else
      let sum2 := weightedSum ds [6, 5, 4, 3, 2, 9, 8, 7, 6, 5, 4, 3, 2]
      let digit2 := checkDigit sum2
      if digit2 ≠ digitVal (ds.getD 13 ' ') then
        ⟨false, some "Segundo dígito verificador inválido",
          some [("calculated", .num digit2), ("provided", .num (digitVal (ds.getD 13 ' '))),
                ("sum", .num sum2), ("remainder", .num (sum2 % 11))]⟩
      else
        ⟨true, none,
          some [("formatted", .str (cnpjFormatted ds)),
                ("type", .str "company"), ("country", .str "BR")]⟩

/-- PortugalRules.getEntityType (v1.0.1): first digit → entity type,
unmapped digits fall through to "unknown" via `|| 'unknown'`. -/
def entityTypes : List (Char × String) :=
  [('1', "personal"), ('2', "personal"), ('3', "personal"),
   ('5', "public_entity"), ('6', "non_profit"),
   ('7', "other_entity"), ('8', "other_entity"), ('9', "other_entity")]

/-- PortugalRules.getEntityType. -/
def getEntityType (firstDigit : Char) : String :=
  (entityTypes.lookup firstDigit).getD "unknown"

/-- PortugalRules.nif (v1.0.1, the variant bundled in ValidationManager.js:
accepts first digits 1,2,3,5,6,7,8,9 and derives the entity type). -/
def nif (input : String) : ValidationResult :=
  let ds := stripDigits input
  if ds.length ≠ 9 then
    ⟨false, some "NIF must contain exactly 9 digits",
      some [("length", .num ds.length), ("expected", .num 9)]⟩
  else if allSame ds then
    ⟨false, some "NIF cannot have all digits the same",
      some [("pattern", .str "repeated_digits")]⟩
  else if ¬ (['1', '2', '3', '5', '6', '7', '8', '9'].contains (ds.getD 0 ' ')) then
    ⟨false, some "NIF must start with 1, 2, 3, 5, 6, 7, 8 or 9",
      some [("firstDigit", .str (String.mk [ds.getD 0 ' '])),
            ("validFirstDigits", .arr (['1', '2', '3', '5', '6', '7', '8', '9'].map
              (fun c => .str (String.mk [c]))))]⟩
  else
    let sum := weightedSum ds [9, 8, 7, 6, 5, 4, 3, 2]
    let cd := checkDigit sum
    if cd ≠ digitVal (ds.getD 8 ' ') then
      ⟨false, some "Invalid check digit",
        some [("calculated", .num cd), ("provided", .num (digitVal (ds.getD 8 ' ')))]⟩
    else
      ⟨true, none,
        some [("formatted", .str (ptFormatted ds)),
              ("type", .str (getEntityType (ds.getD 0 ' '))), ("country", .str "PT")]⟩

/-- PortugalRules.nipc. -/
def nipc (input : String) : ValidationResult :=
  let ds := stripDigits input
  if ds.length ≠ 9 then
    ⟨false, some "NIPC must contain exactly 9 digits",
      some [("length", .num ds.length), ("expected", .num 9)]⟩
  else if allSame ds then
    ⟨false, some "NIPC cannot have all digits the same",
      some [("pattern", .str "repeated_digits")]⟩
  else if ¬ (['5', '6', '7', '8', '9'].contains (ds.getD 0 ' ')) then
    ⟨false, some "NIPC must start with 5, 6, 7, 8 or 9",
      some [("firstDigit", .str (String.mk [ds.getD 0 ' '])),
            ("validFirstDigits", .arr (['5', '6', '7', '8', '9'].map
              (fun c => .str (String.mk [c]))))]⟩
  else
    let sum := weightedSum ds [9, 8, 7, 6, 5, 4, 3, 2]
    let cd := checkDigit sum
    if cd ≠ digitVal (ds.getD 8 ' ') then
      ⟨false, some "Invalid check digit",
        some [("calculated", .num cd), ("provided", .num (digitVal (ds.getD 8 ' ')))]⟩
    else
      ⟨true, none,
        some [("formatted", .str (ptFormatted ds)),
              ("type", .str "company"), ("country", .str "PT")]⟩

/-- USARules.ssn. -/
def ssn (input : String) : ValidationResult :=
  let ds := stripDigits input
  if ds.length ≠ 9 then
    ⟨false, some "SSN must contain exactly 9 digits",
      some [("length", .num ds.length), ("expected", .num 9)]⟩
  else if allSame ds then
    ⟨false, some "SSN cannot have all digits the same",
      some [("pattern", .str "repeated_digits")]⟩
  else
    let area := seg ds 0 3
    let group := seg ds 3 5
    let serial := seg ds 5 9
    if area = "000" then
      ⟨false, some "SSN area cannot be 000",
        some [("area", .str area), ("issue", .str "invalid_area_000")]⟩
    else if area = "666" then
      ⟨false, some "",
        some [("area", .str area), ("issue", .str "invalid_area_666")]⟩
    else if ds.getD 0 ' ' = '9' then
      ⟨false, some "SSN area cannot start with 9",
        some [("area", .str area), ("issue", .str "invalid_area_starts_with_9")]⟩
    else if group = "00" then
      ⟨false, some "SSN group cannot be 00",
        some [("group", .str group), ("issue", .str "invalid_group_00")]⟩
    else if serial = "0000" then
      ⟨false, some "SSN serial number cannot be 0000",
        some [("serial", .str serial), ("issue", .str "invalid_serial_0000")]⟩
    else
      ⟨true, none,
        some [("formatted", .str (ssnFormatted ds)),
              ("type", .str "personal"), ("country", .str "US"),
              ("parts", .obj [("area", .str area), ("group", .str group),
                              ("serial", .str serial)])]⟩

/-- USARules validPrefixes: the fixed allow-list of valid EIN campus prefixes. -/
def validPrefixes : List String :=
  ["01", "02", "03", "04", "05", "06", "10", "11", "12", "13", "14", "15", "16",
   "20", "21", "22", "23", "24", "25", "26", "27",
   "30", "31", "32", "33", "34", "35", "36", "37", "38", "39",
   "40", "41", "42", "43", "44", "45", "46", "47", "48",
   "50", "51", "52", "53", "54", "55", "56", "57", "58", "59",
   "60", "61", "62", "63", "64", "65", "66", "67", "68",
   "71", "72", "73", "74", "75", "76", "77",
   "80", "81", "82", "83", "84", "85", "86", "87", "88",
   "90", "91", "92", "93", "94", "95", "96", "98", "99"]

/-- USARules.ein. -/
def ein (input : String) : ValidationResult :=
  let ds := stripDigits input
  if ds.length ≠ 9 then
    ⟨false, some "EIN must contain exactly 9 digits",
      some [("length", .num ds.length), ("expected", .num 9)]⟩
  else if allSame ds then
    ⟨false, some "EIN cannot have all digits the same",
      some [("pattern", .str "repeated_digits")]⟩
  else
    let px := seg ds 0 2
    let suffix := seg ds 2 9
    if ¬ (validPrefixes.contains px) then
      ⟨false, some "Invalid EIN prefix",
        some [("prefix", .str px), ("issue", .str "invalid_prefix")]⟩
    else if suffix = "0000000" then
      ⟨false, some "EIN suffix cannot be 0000000",
        some [("suffix", .str suffix), ("issue", .str "invalid_suffix_all_zeros")]⟩
    else
      ⟨true, none,
        some [("formatted", .str (einFormatted ds)),
              ("type", .str "company"), ("country", .str "US"),
              ("parts", .obj [("prefix", .str px), ("suffix", .str suffix)])]⟩

/-- One entry of a country's `documents` object in CountriesData.js:
its key (`typeId`), digit `length`, display `mask` and `priority`. -/
structure DocumentSpec where
  typeId : String
  len : Nat
  mask : String
  priority : Nat
deriving Repr, DecidableEq

/-- CountriesData.br.documents, in object insertion order. -/
def brDocuments : List DocumentSpec :=
  [⟨"cpf", 11, "XXX.XXX.XXX-XX", 1⟩, ⟨"cnpj", 14, "XX.XXX.XXX/XXXX-XX", 2⟩]

/-- CountriesData.pt.documents, in object insertion order. -/
def ptDocuments : List DocumentSpec :=
  [⟨"nif", 9, "XXX XXX XXX", 1⟩, ⟨"nipc", 9, "XXX XXX XXX", 2⟩]

/-- CountriesData.us.documents, in object insertion order. -/
def usDocuments : List DocumentSpec :=
  [⟨"ssn", 9, "XXX-XX-XXXX", 1⟩, ⟨"ein", 9, "XX-XXXXXXX", 2⟩]

/-- Insert a document after all accumulated entries of priority ≤ its own. -/
def insertByPriority (d : DocumentSpec) : List DocumentSpec → List DocumentSpec
  | [] => [d]
  | e :: es => if e.priority ≤ d.priority then e :: insertByPriority d es else d :: e :: es

/-- `Object.entries(country.documents).sort((a, b) => a[1].priority - b[1].priority)`:
a stable ascending sort by priority (JS `Array.prototype.sort` is stable). -/
def sortByPriority (docs : List DocumentSpec) : List DocumentSpec :=
  docs.foldl (fun acc d => insertByPriority d acc) []

/-- FormatManager.detectDocumentType, as a function of the selected country's
document list and the raw input value; returns the detected document key
(`none` only for an empty document list, where the JS would fault on
`documents[0][0]`). -/
def detectDocumentType (docs : List DocumentSpec) (rawValue : String) : Option String :=
  let value := stripDigits rawValue
  let sorted := sortByPriority docs
  match sorted with
  | [] => none
  | first :: _ =>
    if value.length = 0 then
      some first.typeId
    else
      match sorted.find? (fun d => value.length ≤ d.len) with
      | some d => some d.typeId
      | none => sorted.getLast?.map (fun d => d.typeId)

/-- FormatManager.applyMask's loop body over the remaining mask and value:
the loop runs while both mask characters and value characters remain. -/
def applyMaskAux : List Char → List Char → List Char
  | _, [] => []
  | [], _ :: _ => []
  | m :: ms, v :: vs =>
    if m = 'X' then v :: applyMaskAux ms vs else m :: applyMaskAux ms (v :: vs)

/-- FormatManager.applyMask. -/
def applyMask (value : String) (mask : String) : String :=
  String.mk (applyMaskAux mask.data value.data)

/-- FormatManager.calculateCursorPosition's second loop: walk the new value
(`chars`, current index `i`, digits seen `nf`, current `newCursor` value
`cur`); a digit pushing the count past `target` breaks out of the loop
before `newCursor` is updated. -/
def remapAux (target : Nat) : List Char → Nat → Nat → Nat → Nat
  | [], _, _, cur => cur
  | c :: rest, i, nf, cur =>
    if c.isDigit then
      if target < nf + 1 then cur
      else remapAux target rest (i + 1) (nf + 1) (i + 1)
    else remapAux target rest (i + 1) nf (i + 1)

/-- FormatManager.calculateCursorPosition. -/
def calculateCursorPosition (oldValue newValue : String) (oldCursor : Nat) : Nat :=
  let numbersBeforeCursor := ((oldValue.data.take oldCursor).filter Char.isDigit).length
  remapAux numbersBeforeCursor newValue.data 0 0 0

/-- What a JS validator call can do: return a result object or throw. -/
inductive JSOutcome where
  | returned : ValidationResult → JSOutcome
  | thrown : String → JSOutcome

/-- A country's registered rule object: document type key → validator
function. (Only the validator-typed entries of the JS rule objects are
modelled; `PortugalRules.getEntityType`, a same-object helper, is not a
document validator.) -/
def RuleSet := List (String × (String → JSOutcome))

/-- `countryCode.toLowerCase()` — ASCII lowercasing, character by
character (structurally recursive, unlike `String.toLower`). -/
def jsToLower (s : String) : String :=
  String.mk (s.data.map Char.toLower)

/-- `result.error || null`: a falsy error (null or the empty string)
becomes null. -/
def jsOrNull (e : Option String) : Option String :=
  match e with
  | none => none
  | some s => if s = "" then none else some s

/-- The object Validator.validate returns: the three failure shapes carry
no `documentType`/`countryCode` properties (modelled as `none`). -/
structure DispatchResult where
  isValid : Bool
  error : Option String
  details : Option (List (String × JVal))
  documentType : Option String
  countryCode : Option String

/-- Validator.validate: look up the country's rules (lowercased code), then
the document type's validator; call it, catching anything it throws. -/
def Validator.validate (rules : List (String × RuleSet))
    (document countryCode documentType : String) : DispatchResult :=
  match rules.lookup (jsToLower countryCode) with
  | none =>
    ⟨false, some ("Regras de validação não encontradas para o país: " ++ countryCode),
      none, none, none⟩
  | some rs =>
    match rs.lookup documentType with
    | none =>
      ⟨false, some ("Validador não encontrado para o tipo: " ++ documentType),
        none, none, none⟩
    | some validator =>
      match validator document with
      | .returned result =>
        ⟨result.isValid, jsOrNull result.error, result.details,
          some documentType, some countryCode⟩
      | .thrown msg =>
        ⟨false, some ("Erro durante validação: " ++ msg), none, none, none⟩

/-- The rule table after the three `registerRules` calls made by
BrazilRules.js, PortugalRules (v1.0.1) and USARules.js. -/
def registeredRules : List (String × RuleSet) :=
  [("br", [("cpf", fun s => .returned (cpf s)), ("cnpj", fun s => .returned (cnpj s))]),
   ("pt", [("nif", fun s => .returned (nif s)), ("nipc", fun s => .returned (nipc s))]),
   ("us", [("ssn", fun s => .returned (ssn s)), ("ein", fun s => .returned (ein s))])]

/-- Read a success result's `details.formatted` string (empty if absent). -/
def formattedOf (r : ValidationResult) : String :=
  match r.details.bind (List.lookup "formatted") with
  | some (.str f) => f
  | _ => ""

/-- The number of digit placeholders (the character X) in a mask. -/
def countX (mask : List Char) : Nat :=
  (mask.filter (fun c => c = 'X')).length

/-- The index of the k-th digit character of a list (0-based), if the
list has more than k digits. -/
def nthDigitIndex : List Char → Nat → Option Nat
  | [], _ => none
  | c :: rest, k =>
    if c.isDigit then
      match k with
      | 0 => some 0
      | k + 1 => (nthDigitIndex rest k).map (fun j => j + 1)
    else (nthDigitIndex rest k).map (fun j => j + 1)

/-! ## Helper lemmas -/

theorem stripDigits_mk (l : List Char) :
    stripDigits (String.mk l) = l.filter Char.isDigit := rfl

theorem stripDigits_append (a b : String) :
    stripDigits (a ++ b) = stripDigits a ++ stripDigits b := by
  simp [stripDigits, String.data_append]

theorem mem_stripDigits_isDigit {s : String} {c : Char} (h : c ∈ stripDigits s) :
    c.isDigit := by
  have := List.mem_filter.mp h
  exact this.2

theorem stripDigits_seg (ds : List Char) (a b : Nat) (h : ∀ c ∈ ds, c.isDigit) :
    stripDigits (seg ds a b) = (ds.drop a).take (b - a) := by
  rw [seg, stripDigits_mk]
  exact List.filter_eq_self.mpr fun c hc =>
    h c (List.take_subset _ _ (by exact hc) |> List.drop_subset _ _)

theorem seg_join (ds : List Char) (a b c : Nat) (hab : a ≤ b) (hbc : b ≤ c) :
    (ds.drop a).take (b - a) ++ (ds.drop b).take (c - b) = (ds.drop a).take (c - a) := by
  have hsum : (b - a) + (c - b) = c - a := by omega
  rw [← hsum, List.take_add]
  congr 2
  rw [List.drop_drop]
  congr 1
  omega

theorem stripDigits_cpfFormatted (ds : List Char) (h : ∀ c ∈ ds, c.isDigit)
    (hlen : ds.length = 11) : stripDigits (cpfFormatted ds) = ds := by
  have e1 : (ds.drop 6).take 3 ++ (ds.drop 9).take 2 = (ds.drop 6).take 5 := by
    simpa using seg_join ds 6 9 11 (by omega) (by omega)
  have e2 : (ds.drop 3).take 3 ++ (ds.drop 6).take 5 = (ds.drop 3).take 8 := by
    simpa using seg_join ds 3 6 11 (by omega) (by omega)
  have e3 : (ds.drop 0).take 3 ++ (ds.drop 3).take 8 = (ds.drop 0).take 11 := by
    simpa using seg_join ds 0 3 11 (by omega) (by omega)
  have hdot : stripDigits "." = [] := rfl
  have hdash : stripDigits "-" = [] := rfl
  simp only [cpfFormatted, stripDigits_append, stripDigits_seg ds _ _ h, hdot, hdash,
    List.append_nil, List.append_assoc]
  norm_num
  rw [e1, e2]
  have := e3
  simp only [List.drop_zero] at this
  rw [this, ← hlen, List.take_length]

theorem stripDigits_cnpjFormatted (ds : List Char) (h : ∀ c ∈ ds, c.isDigit)
    (hlen : ds.length = 14) : stripDigits (cnpjFormatted ds) = ds := by
  have e1 : (ds.drop 8).take 4 ++ (ds.drop 12).take 2 = (ds.drop 8).take 6 := by
    simpa using seg_join ds 8 12 14 (by omega) (by omega)
  have e2 : (ds.drop 5).take 3 ++ (ds.drop 8).take 6 = (ds.drop 5).take 9 := by
    simpa using seg_join ds 5 8 14 (by omega) (by omega)
  have e3 : (ds.drop 2).take 3 ++ (ds.drop 5).take 9 = (ds.drop 2).take 12 := by
    simpa using seg_join ds 2 5 14 (by omega) (by omega)
  have e4 : ds.take 2 ++ (ds.drop 2).take 12 = ds.take 14 := by
    simpa using seg_join ds 0 2 14 (by omega) (by omega)
  have hdot : stripDigits "." = [] := rfl
  have hdash : stripDigits "-" = [] := rfl
  have hslash : stripDigits "/" = [] := rfl
  simp only [cnpjFormatted, stripDigits_append, stripDigits_seg ds _ _ h, hdot, hdash, hslash,
    List.append_nil, List.append_assoc]
  norm_num
  rw [e1, e2, e3, e4, ← hlen, List.take_length]

theorem stripDigits_ptFormatted (ds : List Char) (h : ∀ c ∈ ds, c.isDigit)
    (hlen : ds.length = 9) : stripDigits (ptFormatted ds) = ds := by
  have e1 : (ds.drop 3).take 3 ++ (ds.drop 6).take 3 = (ds.drop 3).take 6 := by
    simpa using seg_join ds 3 6 9 (by omega) (by omega)
  have e2 : ds.take 3 ++ (ds.drop 3).take 6 = ds.take 9 := by
    simpa using seg_join ds 0 3 9 (by omega) (by omega)
  have hsp : stripDigits " " = [] := rfl
  simp only [ptFormatted, stripDigits_append, stripDigits_seg ds _ _ h, hsp,
    List.append_nil, List.append_assoc]
  norm_num
  rw [e1, e2, ← hlen, List.take_length]

theorem stripDigits_ssnFormatted (ds : List Char) (h : ∀ c ∈ ds, c.isDigit)
    (hlen : ds.length = 9) : stripDigits (ssnFormatted ds) = ds := by
  have e1 : (ds.drop 3).take 2 ++ (ds.drop 5).take 4 = (ds.drop 3).take 6 := by
    simpa using seg_join ds 3 5 9 (by omega) (by omega)
  have e2 : ds.take 3 ++ (ds.drop 3).take 6 = ds.take 9 := by
    simpa using seg_join ds 0 3 9 (by omega) (by omega)
  have hdash : stripDigits "-" = [] := rfl
  simp only [ssnFormatted, stripDigits_append, stripDigits_seg ds _ _ h, hdash,
    List.append_nil, List.append_assoc]
  norm_num
  rw [e1, e2, ← hlen, List.take_length]

theorem stripDigits_einFormatted (ds : List Char) (h : ∀ c ∈ ds, c.isDigit)
    (hlen : ds.length = 9) : stripDigits (einFormatted ds) = ds := by
  have e1 : ds.take 2 ++ (ds.drop 2).take 7 = ds.take 9 := by
    simpa using seg_join ds 0 2 9 (by omega) (by omega)
  have hdash : stripDigits "-" = [] := rfl
  simp only [einFormatted, stripDigits_append, stripDigits_seg ds _ _ h, hdash,
    List.append_nil, List.append_assoc]
  norm_num
  rw [e1, ← hlen, List.take_length]

theorem cpf_congr {s t : String} (h : stripDigits s = stripDigits t) : cpf s = cpf t := by
  unfold cpf
  rw [h]

theorem cpf_isValid_shape {s : String} (h : (cpf s).isValid = true) :
    cpf s = ⟨true, none,
      some [("formatted", .str (cpfFormatted (stripDigits s))),
            ("type", .str "personal"), ("country", .str "BR")]⟩ ∧
    (stripDigits s).length = 11 := by
  unfold cpf at h ⊢
  dsimp only at h ⊢
  split_ifs at h ⊢ with h1 h2 h3 h4
  exact ⟨rfl, by omega⟩

theorem cnpj_congr {s t : String} (h : stripDigits s = stripDigits t) : cnpj s = cnpj t := by
  unfold cnpj
  rw [h]

theorem cnpj_isValid_shape {s : String} (h : (cnpj s).isValid = true) :
    cnpj s = ⟨true, none,
      some [("formatted", .str (cnpjFormatted (stripDigits s))),
            ("type", .str "company"), ("country", .str "BR")]⟩ ∧
    (stripDigits s).length = 14 := by
  unfold cnpj at h ⊢
  dsimp only at h ⊢
  split_ifs at h ⊢ with h1 h2 h3 h4
  exact ⟨rfl, by omega⟩

theorem nif_congr {s t : String} (h : stripDigits s = stripDigits t) : nif s = nif t := by
  unfold nif
  rw [h]

theorem nif_isValid_shape {s : String} (h : (nif s).isValid = true) :
    nif s = ⟨true, none,
      some [("formatted", .str (ptFormatted (stripDigits s))),
            ("type", .str (getEntityType ((stripDigits s).getD 0 ' '))),
            ("country", .str "PT")]⟩ ∧
    (stripDigits s).length = 9 := by
  unfold nif at h ⊢
  dsimp only at h ⊢
  split_ifs at h ⊢ with h1 h2 h3 h4
  exact ⟨rfl, by omega⟩

theorem nipc_congr {s t : String} (h : stripDigits s = stripDigits t) : nipc s = nipc t := by
  unfold nipc
  rw [h]

theorem nipc_isValid_shape {s : String} (h : (nipc s).isValid = true) :
    nipc s = ⟨true, none,
      some [("formatted", .str (ptFormatted (stripDigits s))),
            ("type", .str "company"), ("country", .str "PT")]⟩ ∧
    (stripDigits s).length = 9 := by
  unfold nipc at h ⊢
  dsimp only at h ⊢
  split_ifs at h ⊢ with h1 h2 h3 h4
  exact ⟨rfl, by omega⟩

theorem ssn_congr {s t : String} (h : stripDigits s = stripDigits t) : ssn s = ssn t := by
  unfold ssn
  rw [h]

theorem ssn_isValid_shape {s : String} (h : (ssn s).isValid = true) :
    ssn s = ⟨true, none,
      some [("formatted", .str (ssnFormatted (stripDigits s))),
            ("type", .str "personal"), ("country", .str "US"),
            ("parts", .obj [("area", .str (seg (stripDigits s) 0 3)),
                            ("group", .str (seg (stripDigits s) 3 5)),
                            ("serial", .str (seg (stripDigits s) 5 9))])]⟩ ∧
    (stripDigits s).length = 9 := by
  unfold ssn at h ⊢
  dsimp only at h ⊢
  split_ifs at h ⊢ with h1 h2 h3 h4 h5 h6 h7
  exact ⟨rfl, by omega⟩

theorem ein_congr {s t : String} (h : stripDigits s = stripDigits t) : ein s = ein t := by
  unfold ein
  rw [h]

theorem ein_isValid_shape {s : String} (h : (ein s).isValid = true) :
    ein s = ⟨true, none,
      some [("formatted", .str (einFormatted (stripDigits s))),
            ("type", .str "company"), ("country", .str "US"),
            ("parts", .obj [("prefix", .str (seg (stripDigits s) 0 2)),
                            ("suffix", .str (seg (stripDigits s) 2 9))])]⟩ ∧
    (stripDigits s).length = 9 := by
  unfold ein at h ⊢
  dsimp only at h ⊢
  split_ifs at h ⊢ with h1 h2 h3 h4
  exact ⟨rfl, by omega⟩

theorem cpf_roundtrip (s : String) (h : (cpf s).isValid = true) :
    (cpf (formattedOf (cpf s))).isValid = true := by
  obtain ⟨hshape, hlen⟩ := cpf_isValid_shape h
  have hdig : ∀ c ∈ stripDigits s, c.isDigit := fun c hc => mem_stripDigits_isDigit hc
  have hfmt : formattedOf (cpf s) = cpfFormatted (stripDigits s) := by
    rw [hshape]; rfl
  have hsame : cpf (cpfFormatted (stripDigits s)) = cpf s :=
    cpf_congr (by rw [stripDigits_cpfFormatted _ hdig hlen])
  rw [hfmt, hsame, hshape]

theorem cnpj_roundtrip (s : String) (h : (cnpj s).isValid = true) :
    (cnpj (formattedOf (cnpj s))).isValid = true := by
  obtain ⟨hshape, hlen⟩ := cnpj_isValid_shape h
  have hdig : ∀ c ∈ stripDigits s, c.isDigit := fun c hc => mem_stripDigits_isDigit hc
  have hfmt : formattedOf (cnpj s) = cnpjFormatted (stripDigits s) := by
    rw [hshape]; rfl
  have hsame : cnpj (cnpjFormatted (stripDigits s)) = cnpj s :=
    cnpj_congr (by rw [stripDigits_cnpjFormatted _ hdig hlen])
  rw [hfmt, hsame, hshape]

theorem nif_roundtrip (s : String) (h : (nif s).isValid = true) :
    (nif (formattedOf (nif s))).isValid = true := by
  obtain ⟨hshape, hlen⟩ := nif_isValid_shape h
  have hdig : ∀ c ∈ stripDigits s, c.isDigit := fun c hc => mem_stripDigits_isDigit hc
  have hfmt : formattedOf (nif s) = ptFormatted (stripDigits s) := by
    rw [hshape]; rfl
  have hsame : nif (ptFormatted (stripDigits s)) = nif s :=
    nif_congr (by rw [stripDigits_ptFormatted _ hdig hlen])
  rw [hfmt, hsame, hshape]

theorem nipc_roundtrip (s : String) (h : (nipc s).isValid = true) :
    (nipc (formattedOf (nipc s))).isValid = true := by
  obtain ⟨hshape, hlen⟩ := nipc_isValid_shape h
  have hdig : ∀ c ∈ stripDigits s, c.isDigit := fun c hc => mem_stripDigits_isDigit hc
  have hfmt : formattedOf (nipc s) = ptFormatted (stripDigits s) := by
    rw [hshape]; rfl
  have hsame : nipc (ptFormatted (stripDigits s)) = nipc s :=
    nipc_congr (by rw [stripDigits_ptFormatted _ hdig hlen])
  rw [hfmt, hsame, hshape]

theorem ssn_roundtrip (s : String) (h : (ssn s).isValid = true) :
    (ssn (formattedOf (ssn s))).isValid = true := by
  obtain ⟨hshape, hlen⟩ := ssn_isValid_shape h
  have hdig : ∀ c ∈ stripDigits s, c.isDigit := fun c hc => mem_stripDigits_isDigit hc
  have hfmt : formattedOf (ssn s) = ssnFormatted (stripDigits s) := by
    rw [hshape]; rfl
  have hsame : ssn (ssnFormatted (stripDigits s)) = ssn s :=
    ssn_congr (by rw [stripDigits_ssnFormatted _ hdig hlen])
  rw [hfmt, hsame, hshape]

theorem ein_roundtrip (s : String) (h : (ein s).isValid = true) :
    (ein (formattedOf (ein s))).isValid = true := by
  obtain ⟨hshape, hlen⟩ := ein_isValid_shape h
  have hdig : ∀ c ∈ stripDigits s, c.isDigit := fun c hc => mem_stripDigits_isDigit hc
  have hfmt : formattedOf (ein s) = einFormatted (stripDigits s) := by
    rw [hshape]; rfl
  have hsame : ein (einFormatted (stripDigits s)) = ein s :=
    ein_congr (by rw [stripDigits_einFormatted _ hdig hlen])
  rw [hfmt, hsame, hshape]

/-! ## Claims -/

/-- C8: for every supported document type (CPF, CNPJ, NIF, NIPC, SSN, EIN)
and every input on which its validator succeeds, re-validating the
`details.formatted` string returned by that success (the validator
re-strips the separators itself) again yields `isValid = true`: the
canonical formatted output round-trips through validation. -/
theorem c8_formatted_roundtrip :
    (∀ s, (cpf s).isValid = true → (cpf (formattedOf (cpf s))).isValid = true) ∧
    (∀ s, (cnpj s).isValid = true → (cnpj (formattedOf (cnpj s))).isValid = true) ∧
    (∀ s, (nif s).isValid = true → (nif (formattedOf (nif s))).isValid = true) ∧
    (∀ s, (nipc s).isValid = true → (nipc (formattedOf (nipc s))).isValid = true) ∧
    (∀ s, (ssn s).isValid = true → (ssn (formattedOf (ssn s))).isValid = true) ∧
    (∀ s, (ein s).isValid = true → (ein (formattedOf (ein s))).isValid = true) :=
  ⟨cpf_roundtrip, cnpj_roundtrip, nif_roundtrip, nipc_roundtrip, ssn_roundtrip, ein_roundtrip⟩

/-- Witness for C8 at one concrete valid document per type. -/
theorem c8_formatted_roundtrip_witness :
    ((cpf "11144477735").isValid = true ∧
      (cpf (formattedOf (cpf "11144477735"))).isValid = true) ∧
    ((cnpj "11222333000181").isValid = true ∧
      (cnpj (formattedOf (cnpj "11222333000181"))).isValid = true) ∧
    ((nif "123456789").isValid = true ∧
      (nif (formattedOf (nif "123456789"))).isValid = true) ∧
    ((nipc "506499774").isValid = true ∧
      (nipc (formattedOf (nipc "506499774"))).isValid = true) ∧
    ((ssn "123456789").isValid = true ∧
      (ssn (formattedOf (ssn "123456789"))).isValid = true) ∧
    ((ein "123456789").isValid = true ∧
      (ein (formattedOf (ein "123456789"))).isValid = true) :=
  ⟨⟨by rfl, c8_formatted_roundtrip.1 "11144477735" (by rfl)⟩,
   ⟨by rfl, c8_formatted_roundtrip.2.1 "11222333000181" (by rfl)⟩,
   ⟨by rfl, c8_formatted_roundtrip.2.2.1 "123456789" (by rfl)⟩,
   ⟨by rfl, c8_formatted_roundtrip.2.2.2.1 "506499774" (by rfl)⟩,
   ⟨by rfl, c8_formatted_roundtrip.2.2.2.2.1 "123456789" (by rfl)⟩,
   ⟨by rfl, c8_formatted_roundtrip.2.2.2.2.2 "123456789" (by rfl)⟩⟩

/-- C1: for every input string whose digit form (after stripping
non-digits) has exactly 11 digits that are not all identical, the CPF
validator computes the first check digit as the weighted sum of
digits 0..8 with weights 10 down to 2 under the mod-11 rule
(`remainder < 2 → 0`, else `11 - remainder`) compared to digit 9, and
the second identically over digits 0..9 with weights 11 down to 2
compared to digit 10; a mismatch yields `isValid = false` with
calculated/provided/sum/remainder in the details, and on success
`details.formatted` is the digits in the shape `XXX.XXX.XXX-XX`.
In particular `"11144477735"` is valid with formatted
`"111.444.777-35"`, and `"11111111111"` fails with the
repeated-digit error. -/
theorem c1_cpf_check_digits (s : String)
    (h11 : (stripDigits s).length = 11)
    (hrep : allSame (stripDigits s) = false) :
    ((cpf s).isValid = true ↔
      (checkDigit (weightedSum (stripDigits s) [10, 9, 8, 7, 6, 5, 4, 3, 2]) =
         digitVal ((stripDigits s).getD 9 ' ') ∧
       checkDigit (weightedSum (stripDigits s) [11, 10, 9, 8, 7, 6, 5, 4, 3, 2]) =
         digitVal ((stripDigits s).getD 10 ' '))) ∧
    (checkDigit (weightedSum (stripDigits s) [10, 9, 8, 7, 6, 5, 4, 3, 2]) ≠
       digitVal ((stripDigits s).getD 9 ' ') →
      cpf s = ⟨false, some "Primeiro dígito verificador inválido",
        some [("calculated",
                .num (checkDigit (weightedSum (stripDigits s) [10, 9, 8, 7, 6, 5, 4, 3, 2]))),
              ("provided", .num (digitVal ((stripDigits s).getD 9 ' '))),
              ("sum", .num (weightedSum (stripDigits s) [10, 9, 8, 7, 6, 5, 4, 3, 2])),
              ("remainder",
                .num (weightedSum (stripDigits s) [10, 9, 8, 7, 6, 5, 4, 3, 2] % 11))]⟩) ∧
    (checkDigit (weightedSum (stripDigits s) [10, 9, 8, 7, 6, 5, 4, 3, 2]) =
       digitVal ((stripDigits s).getD 9 ' ') →
     checkDigit (weightedSum (stripDigits s) [11, 10, 9, 8, 7, 6, 5, 4, 3, 2]) ≠
       digitVal ((stripDigits s).getD 10 ' ') →
      cpf s = ⟨false, some "Segundo dígito verificador inválido",
        some [("calculated",
                .num (checkDigit (weightedSum (stripDigits s) [11, 10, 9, 8, 7, 6, 5, 4, 3, 2]))),
              ("provided", .num (digitVal ((stripDigits s).getD 10 ' '))),
              ("sum", .num (weightedSum (stripDigits s) [11, 10, 9, 8, 7, 6, 5, 4, 3, 2])),
              ("remainder",
                .num (weightedSum (stripDigits s) [11, 10, 9, 8, 7, 6, 5, 4, 3, 2] % 11))]⟩) ∧
    (checkDigit (weightedSum (stripDigits s) [10, 9, 8, 7, 6, 5, 4, 3, 2]) =
       digitVal ((stripDigits s).getD 9 ' ') →
     checkDigit (weightedSum (stripDigits s) [11, 10, 9, 8, 7, 6, 5, 4, 3, 2]) =
       digitVal ((stripDigits s).getD 10 ' ') →
      cpf s = ⟨true, none,
        some [("formatted", .str (cpfFormatted (stripDigits s))),
              ("type", .str "personal"), ("country", .str "BR")]⟩) ∧
    cpf "11144477735" = ⟨true, none,
      some [("formatted", .str "111.444.777-35"),
            ("type", .str "personal"), ("country", .str "BR")]⟩ ∧
    cpf "11111111111" = ⟨false, some "CPF não pode ter todos os dígitos iguais",
      some [("pattern", .str "repeated_digits")]⟩ := by
  have key : cpf s =
      (if checkDigit (weightedSum (stripDigits s) [10, 9, 8, 7, 6, 5, 4, 3, 2]) ≠
          digitVal ((stripDigits s).getD 9 ' ') then
        ⟨false, some "Primeiro dígito verificador inválido",
          some [("calculated",
                  .num (checkDigit (weightedSum (stripDigits s) [10, 9, 8, 7, 6, 5, 4, 3, 2]))),
                ("provided", .num (digitVal ((stripDigits s).getD 9 ' '))),
                ("sum", .num (weightedSum (stripDigits s) [10, 9, 8, 7, 6, 5, 4, 3, 2])),
                ("remainder",
                  .num (weightedSum (stripDigits s) [10, 9, 8, 7, 6, 5, 4, 3, 2] % 11))]⟩
      else if checkDigit (weightedSum (stripDigits s) [11, 10, 9, 8, 7, 6, 5, 4, 3, 2]) ≠
          digitVal ((stripDigits s).getD 10 ' ') then
        ⟨false, some "Segundo dígito verificador inválido",
          some [("calculated",
                  .num (checkDigit (weightedSum (stripDigits s) [11, 10, 9, 8, 7, 6, 5, 4, 3, 2]))),
                ("provided", .num (digitVal ((stripDigits s).getD 10 ' '))),
                ("sum", .num (weightedSum (stripDigits s) [11, 10, 9, 8, 7, 6, 5, 4, 3, 2])),
                ("remainder",
                  .num (weightedSum (stripDigits s) [11, 10, 9, 8, 7, 6, 5, 4, 3, 2] % 11))]⟩
      else
        ⟨true, none,
          some [("formatted", .str (cpfFormatted (stripDigits s))),
                ("type", .str "personal"), ("country", .str "BR")]⟩) := by
    simp [cpf, h11, hrep]
  refine ⟨?_, ?_, ?_, ?_, by rfl, by rfl⟩
  · rw [key]
    by_cases hc1 : checkDigit (weightedSum (stripDigits s) [10, 9, 8, 7, 6, 5, 4, 3, 2]) =
        digitVal ((stripDigits s).getD 9 ' ')
    · by_cases hc2 : checkDigit (weightedSum (stripDigits s) [11, 10, 9, 8, 7, 6, 5, 4, 3, 2]) =
          digitVal ((stripDigits s).getD 10 ' ')
      · rw [if_neg (not_not_intro hc1), if_neg (not_not_intro hc2)]
        exact iff_of_true rfl ⟨hc1, hc2⟩
      · rw [if_neg (not_not_intro hc1), if_pos hc2]
        exact iff_of_false (by simp) (fun h => hc2 h.2)
    · rw [if_pos hc1]
      exact iff_of_false (by simp) (fun h => hc1 h.1)
  · intro hne
    rw [key, if_pos hne]
  · intro hc1 hne
    rw [key, if_neg (not_not_intro hc1), if_pos hne]
  · intro hc1 hc2
    rw [key, if_neg (not_not_intro hc1), if_neg (not_not_intro hc2)]

/-- Witness for C1 at the spec's own example CPF. -/
theorem c1_cpf_check_digits_witness :
    (stripDigits "11144477735").length = 11 ∧
    allSame (stripDigits "11144477735") = false ∧
    cpf "11144477735" = ⟨true, none,
      some [("formatted", .str "111.444.777-35"),
            ("type", .str "personal"), ("country", .str "BR")]⟩ :=
  ⟨by rfl, by rfl, (c1_cpf_check_digits "11144477735" (by rfl) (by rfl)).2.2.2.2.1⟩

/-- C2: for every 9-digit, not-all-identical input, the NIF validator
rejects the document with an error unless its first digit is one of
1,2,3,5,6,7,8,9; when the first digit is allowed and the weighted check
digit (weights 9..2 over digits 0..7, mod-11 rule) equals digit 8, the
result is valid and its category is derived from the first digit
(1,2,3 → personal; 5 → public_entity; 6 → non_profit;
7,8,9 → other_entity; anything unmapped → unknown). -/
theorem c2_nif_first_digit_and_category (s : String)
    (h9 : (stripDigits s).length = 9)
    (hrep : allSame (stripDigits s) = false) :
    (¬ (['1', '2', '3', '5', '6', '7', '8', '9'].contains ((stripDigits s).getD 0 ' ')) →
      nif s = ⟨false, some "NIF must start with 1, 2, 3, 5, 6, 7, 8 or 9",
        some [("firstDigit", .str (String.mk [(stripDigits s).getD 0 ' '])),
              ("validFirstDigits", .arr (['1', '2', '3', '5', '6', '7', '8', '9'].map
                (fun c => .str (String.mk [c]))))]⟩) ∧
    ((['1', '2', '3', '5', '6', '7', '8', '9'].contains ((stripDigits s).getD 0 ' ')) →
     checkDigit (weightedSum (stripDigits s) [9, 8, 7, 6, 5, 4, 3, 2]) =
       digitVal ((stripDigits s).getD 8 ' ') →
      nif s = ⟨true, none,
        some [("formatted", .str (ptFormatted (stripDigits s))),
              ("type", .str (getEntityType ((stripDigits s).getD 0 ' '))),
              ("country", .str "PT")]⟩) ∧
    getEntityType '1' = "personal" ∧ getEntityType '2' = "personal" ∧
    getEntityType '3' = "personal" ∧ getEntityType '5' = "public_entity" ∧
    getEntityType '6' = "non_profit" ∧ getEntityType '7' = "other_entity" ∧
    getEntityType '8' = "other_entity" ∧ getEntityType '9' = "other_entity" ∧
    (∀ c : Char, c ∉ ['1', '2', '3', '5', '6', '7', '8', '9'] →
      getEntityType c = "unknown") := by
  have key : nif s =
      (if ¬ (['1', '2', '3', '5', '6', '7', '8', '9'].contains ((stripDigits s).getD 0 ' ')) then
        ⟨false, some "NIF must start with 1, 2, 3, 5, 6, 7, 8 or 9",
          some [("firstDigit", .str (String.mk [(stripDigits s).getD 0 ' '])),
                ("validFirstDigits", .arr (['1', '2', '3', '5', '6', '7', '8', '9'].map
                  (fun c => .str (String.mk [c]))))]⟩
      else if checkDigit (weightedSum (stripDigits s) [9, 8, 7, 6, 5, 4, 3, 2]) ≠
          digitVal ((stripDigits s).getD 8 ' ') then
        ⟨false, some "Invalid check digit",
          some [("calculated", .num (checkDigit (weightedSum (stripDigits s) [9, 8, 7, 6, 5, 4, 3, 2]))),
                ("provided", .num (digitVal ((stripDigits s).getD 8 ' ')))]⟩
      else
        ⟨true, none,
          some [("formatted", .str (ptFormatted (stripDigits s))),
                ("type", .str (getEntityType ((stripDigits s).getD 0 ' '))),
                ("country", .str "PT")]⟩) := by
    simp [nif, h9, hrep]
  refine ⟨?_, ?_, by rfl, by rfl, by rfl, by rfl, by rfl, by rfl, by rfl, by rfl, ?_⟩
  · intro h
    rw [key, if_pos h]
  · intro hfd hcd
    rw [key, if_neg (not_not_intro hfd), if_neg (not_not_intro hcd)]
  · intro c hc
    simp only [List.mem_cons, List.not_mem_nil, or_false, not_or] at hc
    obtain ⟨n1, n2, n3, n5, n6, n7, n8, n9⟩ := hc
    have b1 : (c == '1') = false := beq_eq_false_iff_ne.mpr n1
    have b2 : (c == '2') = false := beq_eq_false_iff_ne.mpr n2
    have b3 : (c == '3') = false := beq_eq_false_iff_ne.mpr n3
    have b5 : (c == '5') = false := beq_eq_false_iff_ne.mpr n5
    have b6 : (c == '6') = false := beq_eq_false_iff_ne.mpr n6
    have b7 : (c == '7') = false := beq_eq_false_iff_ne.mpr n7
    have b8 : (c == '8') = false := beq_eq_false_iff_ne.mpr n8
    have b9 : (c == '9') = false := beq_eq_false_iff_ne.mpr n9
    simp [getEntityType, entityTypes, List.lookup, b1, b2, b3, b5, b6, b7, b8, b9]

/-- Witness for C2 at the spec's example NIF 123456789. -/
theorem c2_nif_first_digit_and_category_witness :
    (stripDigits "123456789").length = 9 ∧
    allSame (stripDigits "123456789") = false ∧
    nif "123456789" = ⟨true, none,
      some [("formatted", .str "123 456 789"),
            ("type", .str "personal"), ("country", .str "PT")]⟩ :=
  ⟨by rfl, by rfl,
    (c2_nif_first_digit_and_category "123456789" (by rfl) (by rfl)).2.1 (by rfl) (by rfl)⟩

/-- C7: for every 9-digit, not-all-identical input split as
area = digits 0..2, group = digits 3..4, serial = digits 5..8, the SSN
validator rejects area "000", area "666", area starting with '9',
group "00" and serial "0000", each as a distinct error condition with
its own details tag, and otherwise succeeds with
formatted = area-group-serial and the three parts in the details.
In particular "000456789" is invalid (area "000") and "123456789"
is valid. -/
theorem c7_ssn_area_group_serial (s : String)
    (h9 : (stripDigits s).length = 9)
    (hrep : allSame (stripDigits s) = false) :
    (seg (stripDigits s) 0 3 = "000" →
      ssn s = ⟨false, some "SSN area cannot be 000",
        some [("area", .str (seg (stripDigits s) 0 3)), ("issue", .str "invalid_area_000")]⟩) ∧
    (seg (stripDigits s) 0 3 ≠ "000" → seg (stripDigits s) 0 3 = "666" →
      ssn s = ⟨false, some "",
        some [("area", .str (seg (stripDigits s) 0 3)), ("issue", .str "invalid_area_666")]⟩) ∧
    (seg (stripDigits s) 0 3 ≠ "000" → seg (stripDigits s) 0 3 ≠ "666" →
     (stripDigits s).getD 0 ' ' = '9' →
      ssn s = ⟨false, some "SSN area cannot start with 9",
        some [("area", .str (seg (stripDigits s) 0 3)),
              ("issue", .str "invalid_area_starts_with_9")]⟩) ∧
    (seg (stripDigits s) 0 3 ≠ "000" → seg (stripDigits s) 0 3 ≠ "666" →
     (stripDigits s).getD 0 ' ' ≠ '9' → seg (stripDigits s) 3 5 = "00" →
      ssn s = ⟨false, some "SSN group cannot be 00",
        some [("group", .str (seg (stripDigits s) 3 5)), ("issue", .str "invalid_group_00")]⟩) ∧
    (seg (stripDigits s) 0 3 ≠ "000" → seg (stripDigits s) 0 3 ≠ "666" →
     (stripDigits s).getD 0 ' ' ≠ '9' → seg (stripDigits s) 3 5 ≠ "00" →
     seg (stripDigits s) 5 9 = "0000" →
      ssn s = ⟨false, some "SSN serial number cannot be 0000",
        some [("serial", .str (seg (stripDigits s) 5 9)),
              ("issue", .str "invalid_serial_0000")]⟩) ∧
    (seg (stripDigits s) 0 3 ≠ "000" → seg (stripDigits s) 0 3 ≠ "666" →
     (stripDigits s).getD 0 ' ' ≠ '9' → seg (stripDigits s) 3 5 ≠ "00" →
     seg (stripDigits s) 5 9 ≠ "0000" →
      ssn s = ⟨true, none,
        some [("formatted", .str (ssnFormatted (stripDigits s))),
              ("type", .str "personal"), ("country", .str "US"),
              ("parts", .obj [("area", .str (seg (stripDigits s) 0 3)),
                              ("group", .str (seg (stripDigits s) 3 5)),
                              ("serial", .str (seg (stripDigits s) 5 9))])]⟩) ∧
    ssn "000456789" = ⟨false, some "SSN area cannot be 000",
      some [("area", .str "000"), ("issue", .str "invalid_area_000")]⟩ ∧
    ssn "123456789" = ⟨true, none,
      some [("formatted", .str "123-45-6789"),
            ("type", .str "personal"), ("country", .str "US"),
            ("parts", .obj [("area", .str "123"), ("group", .str "45"),
                            ("serial", .str "6789")])]⟩ := by
  have key : ssn s =
      (if seg (stripDigits s) 0 3 = "000" then
        ⟨false, some "SSN area cannot be 000",
          some [("area", .str (seg (stripDigits s) 0 3)), ("issue", .str "invalid_area_000")]⟩
      else if seg (stripDigits s) 0 3 = "666" then
        ⟨false, some "",
          some [("area", .str (seg (stripDigits s) 0 3)), ("issue", .str "invalid_area_666")]⟩
      else if (stripDigits s).getD 0 ' ' = '9' then
        ⟨false, some "SSN area cannot start with 9",
          some [("area", .str (seg (stripDigits s) 0 3)),
                ("issue", .str "invalid_area_starts_with_9")]⟩
      else if seg (stripDigits s) 3 5 = "00" then
        ⟨false, some "SSN group cannot be 00",
          some [("group", .str (seg (stripDigits s) 3 5)), ("issue", .str "invalid_group_00")]⟩
      else if seg (stripDigits s) 5 9 = "0000" then
        ⟨false, some "SSN serial number cannot be 0000",
          some [("serial", .str (seg (stripDigits s) 5 9)),
                ("issue", .str "invalid_serial_0000")]⟩
      else
        ⟨true, none,
          some [("formatted", .str (ssnFormatted (stripDigits s))),
                ("type", .str "personal"), ("country", .str "US"),
                ("parts", .obj [("area", .str (seg (stripDigits s) 0 3)),
                                ("group", .str (seg (stripDigits s) 3 5)),
                                ("serial", .str (seg (stripDigits s) 5 9))])]⟩) := by
    simp [ssn, h9, hrep]
  refine ⟨?_, ?_, ?_, ?_, ?_, ?_, by rfl, by rfl⟩
  · intro b1
    rw [key, if_pos b1]
  · intro n1 b2
    rw [key, if_neg n1, if_pos b2]
  · intro n1 n2 b3
    rw [key, if_neg n1, if_neg n2, if_pos b3]
  · intro n1 n2 n3 b4
    rw [key, if_neg n1, if_neg n2, if_neg n3, if_pos b4]
  · intro n1 n2 n3 n4 b5
    rw [key, if_neg n1, if_neg n2, if_neg n3, if_neg n4, if_pos b5]
  · intro n1 n2 n3 n4 n5
    rw [key, if_neg n1, if_neg n2, if_neg n3, if_neg n4, if_neg n5]

/-- Witness for C7 at the spec's valid SSN 123456789. -/
theorem c7_ssn_area_group_serial_witness :
    (stripDigits "123456789").length = 9 ∧
    allSame (stripDigits "123456789") = false ∧
    ssn "123456789" = ⟨true, none,
      some [("formatted", .str "123-45-6789"),
            ("type", .str "personal"), ("country", .str "US"),
            ("parts", .obj [("area", .str "123"), ("group", .str "45"),
                            ("serial", .str "6789")])]⟩ :=
  ⟨by rfl, by rfl,
    (c7_ssn_area_group_serial "123456789" (by rfl) (by rfl)).2.2.2.2.2.1
      (by decide) (by decide) (by decide) (by decide) (by decide)⟩

theorem cpf_result_inv (s : String) :
    ((cpf s).isValid = true → (cpf s).error = none ∧
      (∃ f, (cpf s).details.bind (List.lookup "formatted") = some (.str f)) ∧
      (∃ t, (cpf s).details.bind (List.lookup "type") = some (.str t)) ∧
      (∃ c, (cpf s).details.bind (List.lookup "country") = some (.str c))) ∧
    ((cpf s).isValid = false → ∃ e, (cpf s).error = some e ∧ e ≠ "") := by
  unfold cpf
  dsimp only
  split_ifs <;>
    first
    | exact ⟨fun _ => ⟨rfl, ⟨_, rfl⟩, ⟨_, rfl⟩, ⟨_, rfl⟩⟩, fun h => by simp at h⟩
    | exact ⟨fun h => by simp at h, fun _ => ⟨_, rfl, by decide⟩⟩

theorem cnpj_result_inv (s : String) :
    ((cnpj s).isValid = true → (cnpj s).error = none ∧
      (∃ f, (cnpj s).details.bind (List.lookup "formatted") = some (.str f)) ∧
      (∃ t, (cnpj s).details.bind (List.lookup "type") = some (.str t)) ∧
      (∃ c, (cnpj s).details.bind (List.lookup "country") = some (.str c))) ∧
    ((cnpj s).isValid = false → ∃ e, (cnpj s).error = some e ∧ e ≠ "") := by
  unfold cnpj
  dsimp only
  split_ifs <;>
    first
    | exact ⟨fun _ => ⟨rfl, ⟨_, rfl⟩, ⟨_, rfl⟩, ⟨_, rfl⟩⟩, fun h => by simp at h⟩
    | exact ⟨fun h => by simp at h, fun _ => ⟨_, rfl, by decide⟩⟩

theorem nif_result_inv (s : String) :
    ((nif s).isValid = true → (nif s).error = none ∧
      (∃ f, (nif s).details.bind (List.lookup "formatted") = some (.str f)) ∧
      (∃ t, (nif s).details.bind (List.lookup "type") = some (.str t)) ∧
      (∃ c, (nif s).details.bind (List.lookup "country") = some (.str c))) ∧
    ((nif s).isValid = false → ∃ e, (nif s).error = some e ∧ e ≠ "") := by
  unfold nif
  dsimp only
  split_ifs <;>
    first
    | exact ⟨fun _ => ⟨rfl, ⟨_, rfl⟩, ⟨_, rfl⟩, ⟨_, rfl⟩⟩, fun h => by simp at h⟩
    | exact ⟨fun h => by simp at h, fun _ => ⟨_, rfl, by decide⟩⟩

theorem nipc_result_inv (s : String) :
    ((nipc s).isValid = true → (nipc s).error = none ∧
      (∃ f, (nipc s).details.bind (List.lookup "formatted") = some (.str f)) ∧
      (∃ t, (nipc s).details.bind (List.lookup "type") = some (.str t)) ∧
      (∃ c, (nipc s).details.bind (List.lookup "country") = some (.str c))) ∧
    ((nipc s).isValid = false → ∃ e, (nipc s).error = some e ∧ e ≠ "") := by
  unfold nipc
  dsimp only
  split_ifs <;>
    first
    | exact ⟨fun _ => ⟨rfl, ⟨_, rfl⟩, ⟨_, rfl⟩, ⟨_, rfl⟩⟩, fun h => by simp at h⟩
    | exact ⟨fun h => by simp at h, fun _ => ⟨_, rfl, by decide⟩⟩

theorem ein_result_inv (s : String) :
    ((ein s).isValid = true → (ein s).error = none ∧
      (∃ f, (ein s).details.bind (List.lookup "formatted") = some (.str f)) ∧
      (∃ t, (ein s).details.bind (List.lookup "type") = some (.str t)) ∧
      (∃ c, (ein s).details.bind (List.lookup "country") = some (.str c))) ∧
    ((ein s).isValid = false → ∃ e, (ein s).error = some e ∧ e ≠ "") := by
  unfold ein
  dsimp only
  split_ifs <;>
    first
    | exact ⟨fun _ => ⟨rfl, ⟨_, rfl⟩, ⟨_, rfl⟩, ⟨_, rfl⟩⟩, fun h => by simp at h⟩
    | exact ⟨fun h => by simp at h, fun _ => ⟨_, rfl, by decide⟩⟩

theorem ssn_result_inv (s : String) :
    ((ssn s).isValid = true → (ssn s).error = none ∧
      (∃ f, (ssn s).details.bind (List.lookup "formatted") = some (.str f)) ∧
      (∃ t, (ssn s).details.bind (List.lookup "type") = some (.str t)) ∧
      (∃ c, (ssn s).details.bind (List.lookup "country") = some (.str c))) ∧
    ((ssn s).isValid = false → ∃ e, (ssn s).error = some e ∧
      (e = "" ↔ ((stripDigits s).length = 9 ∧ allSame (stripDigits s) = false ∧
                 seg (stripDigits s) 0 3 = "666"))) := by
  by_cases h1 : (stripDigits s).length ≠ 9
  · have e : ssn s = ⟨false, some "SSN must contain exactly 9 digits",
        some [("length", .num (stripDigits s).length), ("expected", .num 9)]⟩ := by
      unfold ssn; dsimp only; rw [if_pos h1]
    rw [e]
    exact ⟨fun h => by simp at h, fun _ =>
      ⟨_, rfl, iff_of_false (by decide) (fun hr => h1 hr.1)⟩⟩
  · by_cases h2 : allSame (stripDigits s) = true
    · have e : ssn s = ⟨false, some "SSN cannot have all digits the same",
          some [("pattern", .str "repeated_digits")]⟩ := by
        unfold ssn; dsimp only; rw [if_neg h1, if_pos h2]
      rw [e]
      exact ⟨fun h => by simp at h, fun _ =>
        ⟨_, rfl, iff_of_false (by decide)
          (fun hr => by rw [hr.2.1] at h2; exact absurd h2 (by decide))⟩⟩
    · by_cases h3 : seg (stripDigits s) 0 3 = "000"
      · have e : ssn s = ⟨false, some "SSN area cannot be 000",
            some [("area", .str (seg (stripDigits s) 0 3)),
                  ("issue", .str "invalid_area_000")]⟩ := by
          unfold ssn; dsimp only; rw [if_neg h1, if_neg h2, if_pos h3]
        rw [e]
        exact ⟨fun h => by simp at h, fun _ =>
          ⟨_, rfl, iff_of_false (by decide)
            (fun hr => by rw [h3] at hr; exact absurd hr.2.2 (by decide))⟩⟩
      · by_cases h4 : seg (stripDigits s) 0 3 = "666"
        · have e : ssn s = ⟨false, some "",
              some [("area", .str (seg (stripDigits s) 0 3)),
                    ("issue", .str "invalid_area_666")]⟩ := by
            unfold ssn; dsimp only; rw [if_neg h1, if_neg h2, if_neg h3, if_pos h4]
          rw [e]
          exact ⟨fun h => by simp at h, fun _ =>
            ⟨_, rfl, iff_of_true rfl ⟨by omega, by simpa using h2, h4⟩⟩⟩
        · by_cases h5 : (stripDigits s).getD 0 ' ' = '9'
          · have e : ssn s = ⟨false, some "SSN area cannot start with 9",
                some [("area", .str (seg (stripDigits s) 0 3)),
                      ("issue", .str "invalid_area_starts_with_9")]⟩ := by
              unfold ssn; dsimp only
              rw [if_neg h1, if_neg h2, if_neg h3, if_neg h4, if_pos h5]
            rw [e]
            exact ⟨fun h => by simp at h, fun _ =>
              ⟨_, rfl, iff_of_false (by decide) (fun hr => h4 hr.2.2)⟩⟩
          · by_cases h6 : seg (stripDigits s) 3 5 = "00"
            · have e : ssn s = ⟨false, some "SSN group cannot be 00",
                  some [("group", .str (seg (stripDigits s) 3 5)),
                        ("issue", .str "invalid_group_00")]⟩ := by
                unfold ssn; dsimp only
                rw [if_neg h1, if_neg h2, if_neg h3, if_neg h4, if_neg h5, if_pos h6]
              rw [e]
              exact ⟨fun h => by simp at h, fun _ =>
                ⟨_, rfl, iff_of_false (by decide) (fun hr => h4 hr.2.2)⟩⟩
            · by_cases h7 : seg (stripDigits s) 5 9 = "0000"
              · have e : ssn s = ⟨false, some "SSN serial number cannot be 0000",
                    some [("serial", .str (seg (stripDigits s) 5 9)),
                          ("issue", .str "invalid_serial_0000")]⟩ := by
                  unfold ssn; dsimp only
                  rw [if_neg h1, if_neg h2, if_neg h3, if_neg h4, if_neg h5, if_neg h6,
                    if_pos h7]
                rw [e]
                exact ⟨fun h => by simp at h, fun _ =>
                  ⟨_, rfl, iff_of_false (by decide) (fun hr => h4 hr.2.2)⟩⟩
              · have e : ssn s = ⟨true, none,
                    some [("formatted", .str (ssnFormatted (stripDigits s))),
                          ("type", .str "personal"), ("country", .str "US"),
                          ("parts", .obj [("area", .str (seg (stripDigits s) 0 3)),
                                          ("group", .str (seg (stripDigits s) 3 5)),
                                          ("serial", .str (seg (stripDigits s) 5 9))])]⟩ := by
                  unfold ssn; dsimp only
                  rw [if_neg h1, if_neg h2, if_neg h3, if_neg h4, if_neg h5, if_neg h6,
                    if_neg h7]
                rw [e]
                exact ⟨fun _ => ⟨rfl, ⟨_, rfl⟩, ⟨_, rfl⟩, ⟨_, rfl⟩⟩, fun h => by simp at h⟩

/-- C9: every ValidationResult produced by the per-country validators
satisfies: if `isValid` is true then `error` is null and the details
include `formatted`, the category (`type`) and the country code
(`country`), all strings; if `isValid` is false then `error` is a
non-empty string — with the single exception of the SSN area-"666"
branch, whose error is the empty string. -/
theorem c9_result_invariants :
    (∀ s, ((cpf s).isValid = true → (cpf s).error = none ∧
      (∃ f, (cpf s).details.bind (List.lookup "formatted") = some (.str f)) ∧
      (∃ t, (cpf s).details.bind (List.lookup "type") = some (.str t)) ∧
      (∃ c, (cpf s).details.bind (List.lookup "country") = some (.str c))) ∧
     ((cpf s).isValid = false → ∃ e, (cpf s).error = some e ∧ e ≠ "")) ∧
    (∀ s, ((cnpj s).isValid = true → (cnpj s).error = none ∧
      (∃ f, (cnpj s).details.bind (List.lookup "formatted") = some (.str f)) ∧
      (∃ t, (cnpj s).details.bind (List.lookup "type") = some (.str t)) ∧
      (∃ c, (cnpj s).details.bind (List.lookup "country") = some (.str c))) ∧
     ((cnpj s).isValid = false → ∃ e, (cnpj s).error = some e ∧ e ≠ "")) ∧
    (∀ s, ((nif s).isValid = true → (nif s).error = none ∧
      (∃ f, (nif s).details.bind (List.lookup "formatted") = some (.str f)) ∧
      (∃ t, (nif s).details.bind (List.lookup "type") = some (.str t)) ∧
      (∃ c, (nif s).details.bind (List.lookup "country") = some (.str c))) ∧
     ((nif s).isValid = false → ∃ e, (nif s).error = some e ∧ e ≠ "")) ∧
    (∀ s, ((nipc s).isValid = true → (nipc s).error = none ∧
      (∃ f, (nipc s).details.bind (List.lookup "formatted") = some (.str f)) ∧
      (∃ t, (nipc s).details.bind (List.lookup "type") = some (.str t)) ∧
      (∃ c, (nipc s).details.bind (List.lookup "country") = some (.str c))) ∧
     ((nipc s).isValid = false → ∃ e, (nipc s).error = some e ∧ e ≠ "")) ∧
    (∀ s, ((ssn s).isValid = true → (ssn s).error = none ∧
      (∃ f, (ssn s).details.bind (List.lookup "formatted") = some (.str f)) ∧
      (∃ t, (ssn s).details.bind (List.lookup "type") = some (.str t)) ∧
      (∃ c, (ssn s).details.bind (List.lookup "country") = some (.str c))) ∧
     ((ssn s).isValid = false → ∃ e, (ssn s).error = some e ∧
       (e = "" ↔ ((stripDigits s).length = 9 ∧ allSame (stripDigits s) = false ∧
                  seg (stripDigits s) 0 3 = "666")))) ∧
    (∀ s, ((ein s).isValid = true → (ein s).error = none ∧
      (∃ f, (ein s).details.bind (List.lookup "formatted") = some (.str f)) ∧
      (∃ t, (ein s).details.bind (List.lookup "type") = some (.str t)) ∧
      (∃ c, (ein s).details.bind (List.lookup "country") = some (.str c))) ∧
     ((ein s).isValid = false → ∃ e, (ein s).error = some e ∧ e ≠ "")) :=
  ⟨cpf_result_inv, cnpj_result_inv, nif_result_inv, nipc_result_inv,
   ssn_result_inv, ein_result_inv⟩

/-- Witness for C9: a concrete success (CPF) and the concrete SSN
area-666 empty-string-error exception. -/
theorem c9_result_invariants_witness :
    ((cpf "11144477735").isValid = true ∧
      ((cpf "11144477735").error = none ∧
       (∃ f, (cpf "11144477735").details.bind (List.lookup "formatted") = some (.str f)) ∧
       (∃ t, (cpf "11144477735").details.bind (List.lookup "type") = some (.str t)) ∧
       (∃ c, (cpf "11144477735").details.bind (List.lookup "country") = some (.str c)))) ∧
    ((ssn "666456789").isValid = false ∧
      (∃ e, (ssn "666456789").error = some e ∧
        (e = "" ↔ ((stripDigits "666456789").length = 9 ∧
                   allSame (stripDigits "666456789") = false ∧
                   seg (stripDigits "666456789") 0 3 = "666")))) :=
  ⟨⟨by rfl, (c9_result_invariants.1 "11144477735").1 (by rfl)⟩,
   ⟨by rfl, (c9_result_invariants.2.2.2.2.1 "666456789").2 (by rfl)⟩⟩

theorem append_ne_empty_left (p q : String) (hp : p ≠ "") : p ++ q ≠ "" := by
  intro h
  apply hp
  have hd : p.data ++ q.data = ([] : List Char) := by
    have := congrArg String.data h
    rwa [String.data_append] at this
  exact String.ext (List.append_eq_nil.mp hd).1

theorem jsOrNull_ne_some_empty (e : Option String) : jsOrNull e ≠ some "" := by
  cases e with
  | none => simp [jsOrNull]
  | some s =>
    by_cases h : s = ""
    · simp [jsOrNull, h]
    · simp [jsOrNull, h]

/-- C6: for every rule table and (document, countryCode, documentType)
triple, the dispatcher's validate returns an ordinary result value —
the Lean embedding is total, so no exception can escape: an unknown
(lowercased) country yields the "rules not found" failure, an unknown
document type for a known country yields the "validator not found"
failure, a validator that throws is caught and converted into a failed
result carrying the exception message, and a validator that returns is
passed through with its error normalized. -/
theorem c6_dispatcher_never_throws (rules : List (String × RuleSet))
    (document countryCode documentType : String) :
    (rules.lookup (jsToLower countryCode) = none →
      Validator.validate rules document countryCode documentType =
        ⟨false, some ("Regras de validação não encontradas para o país: " ++ countryCode),
          none, none, none⟩) ∧
    (∀ rs, rules.lookup (jsToLower countryCode) = some rs →
      rs.lookup documentType = none →
      Validator.validate rules document countryCode documentType =
        ⟨false, some ("Validador não encontrado para o tipo: " ++ documentType),
          none, none, none⟩) ∧
    (∀ rs f msg, rules.lookup (jsToLower countryCode) = some rs →
      rs.lookup documentType = some f → f document = .thrown msg →
      Validator.validate rules document countryCode documentType =
        ⟨false, some ("Erro durante validação: " ++ msg), none, none, none⟩) ∧
    (∀ rs f r, rules.lookup (jsToLower countryCode) = some rs →
      rs.lookup documentType = some f → f document = .returned r →
      Validator.validate rules document countryCode documentType =
        ⟨r.isValid, jsOrNull r.error, r.details, some documentType, some countryCode⟩) := by
  refine ⟨?_, ?_, ?_, ?_⟩
  · intro h
    unfold Validator.validate
    simp only [h]
  · intro rs h1 h2
    unfold Validator.validate
    simp only [h1, h2]
  · intro rs f msg h1 h2 h3
    unfold Validator.validate
    simp only [h1, h2, h3]
  · intro rs f r h1 h2 h3
    unfold Validator.validate
    simp only [h1, h2, h3]

/-- Witness for C6: an unregistered country, an unregistered type for a
registered country, and a throwing validator in a one-entry table. -/
theorem c6_dispatcher_never_throws_witness :
    (registeredRules.lookup (jsToLower "de") = none ∧
      Validator.validate registeredRules "123" "de" "cpf" =
        ⟨false, some ("Regras de validação não encontradas para o país: " ++ "de"),
          none, none, none⟩) ∧
    (Validator.validate registeredRules "123" "br" "nif" =
      ⟨false, some ("Validador não encontrado para o tipo: " ++ "nif"),
        none, none, none⟩) ∧
    (Validator.validate [("zz", [("boom", fun _ => JSOutcome.thrown "kaput")])]
        "123" "zz" "boom" =
      ⟨false, some ("Erro durante validação: " ++ "kaput"), none, none, none⟩) :=
  ⟨⟨by rfl, (c6_dispatcher_never_throws registeredRules "123" "de" "cpf").1 (by rfl)⟩,
   (c6_dispatcher_never_throws registeredRules "123" "br" "nif").2.1 _ (by rfl) (by rfl),
   (c6_dispatcher_never_throws [("zz", [("boom", fun _ => JSOutcome.thrown "kaput")])]
      "123" "zz" "boom").2.2.1 _ _ "kaput" (by rfl) (by rfl) (by rfl)⟩

/-- C10: the dispatcher normalizes a validator's error field with
`result.error || null`, so every falsy error value a validator
returns — in particular the empty-string error of the SSN
area-"666" branch — is surfaced by the dispatcher's validate as a
null error: no empty-string error message ever crosses the
dispatcher boundary, even though the underlying validator produced
one. -/
theorem c10_empty_error_normalized :
    (∀ e : Option String, jsOrNull e = none ↔ (e = none ∨ e = some "")) ∧
    (∀ (rules : List (String × RuleSet)) (rs : RuleSet) (f : String → JSOutcome)
       (r : ValidationResult) (document countryCode documentType : String),
      rules.lookup (jsToLower countryCode) = some rs →
      rs.lookup documentType = some f → f document = .returned r →
      r.error = some "" →
      (Validator.validate rules document countryCode documentType).error = none) ∧
    (∀ (rules : List (String × RuleSet)) (document countryCode documentType : String),
      (Validator.validate rules document countryCode documentType).error ≠ some "") ∧
    (ssn "666456789").error = some "" ∧
    (Validator.validate registeredRules "666456789" "us" "ssn").error = none := by
  refine ⟨?_, ?_, ?_, by rfl, by rfl⟩
  · intro e
    cases e with
    | none => simp [jsOrNull]
    | some s =>
      by_cases h : s = ""
      · simp [jsOrNull, h]
      · simp [jsOrNull, h]
  · intro rules rs f r document countryCode documentType h1 h2 h3 he
    unfold Validator.validate
    simp only [h1, h2, h3, he]
    rfl
  · intro rules document countryCode documentType
    unfold Validator.validate
    cases h1 : rules.lookup (jsToLower countryCode) with
    | none =>
      dsimp only
      exact fun h => absurd (Option.some.inj h)
        (append_ne_empty_left _ _ (by decide))
    | some rs =>
      dsimp only
      cases h2 : rs.lookup documentType with
      | none =>
        dsimp only
        exact fun h => absurd (Option.some.inj h)
          (append_ne_empty_left _ _ (by decide))
      | some f =>
        dsimp only
        cases h3 : f document with
        | returned r =>
          dsimp only
          exact jsOrNull_ne_some_empty r.error
        | thrown msg =>
          dsimp only
          exact fun h => absurd (Option.some.inj h)
            (append_ne_empty_left _ _ (by decide))

/-- Witness for C10: the SSN area-666 result carries the empty-string
error below the dispatcher and a null error above it. -/
theorem c10_empty_error_normalized_witness :
    (ssn "666456789").error = some "" ∧
    (Validator.validate registeredRules "666456789" "us" "ssn").error = none ∧
    jsOrNull (some "") = none :=
  ⟨c10_empty_error_normalized.2.2.2.1,
   c10_empty_error_normalized.2.1 registeredRules
     [("ssn", fun s => .returned (ssn s)), ("ein", fun s => .returned (ein s))]
     (fun s => .returned (ssn s)) (ssn "666456789") "666456789" "us" "ssn"
     (by rfl) (by rfl) (by rfl) (by rfl),
   (c10_empty_error_normalized.1 (some "")).mpr (Or.inr rfl)⟩

theorem applyMaskAux_nil_value (m : List Char) : applyMaskAux m [] = [] := by
  cases m <;> rfl

theorem getLast?_cons_of_ne_nil {α : Type} (a : α) {l : List α} (hl : l ≠ []) :
    (a :: l).getLast? = l.getLast? := by
  cases l with
  | nil => exact absurd rfl hl
  | cons b bs => rw [List.getLast?_cons_cons]

theorem applyMaskAux_ne_nil {m v : List Char} (hm : m ≠ []) (hv : v ≠ []) :
    applyMaskAux m v ≠ [] := by
  cases m with
  | nil => exact absurd rfl hm
  | cons c ms =>
    cases v with
    | nil => exact absurd rfl hv
    | cons x vs =>
      rw [applyMaskAux]
      split_ifs <;> simp

theorem countX_cons_X (ms : List Char) : countX ('X' :: ms) = countX ms + 1 := by
  simp [countX]

theorem countX_cons_ne {c : Char} (ms : List Char) (h : c ≠ 'X') :
    countX (c :: ms) = countX ms := by
  simp [countX, h]

theorem applyMaskAux_getLast? :
    ∀ (m v : List Char), v ≠ [] → v.length ≤ countX m →
      (applyMaskAux m v).getLast? = v.getLast? := by
  intro m
  induction m with
  | nil =>
    intro v hv hle
    simp [countX] at hle
    exact absurd hle hv
  | cons c ms ih =>
    intro v hv hle
    cases v with
    | nil => exact absurd rfl hv
    | cons x vs =>
      rw [applyMaskAux]
      by_cases hc : c = 'X'
      · rw [if_pos hc]
        cases vs with
        | nil => rw [applyMaskAux_nil_value]
        | cons y ys =>
          subst hc
          rw [countX_cons_X] at hle
          have hle2 : (y :: ys).length ≤ countX ms := by
            simp only [List.length_cons] at hle ⊢
            omega
          have hrec := ih (y :: ys) (by simp) hle2
          have hne : applyMaskAux ms (y :: ys) ≠ [] := by
            intro hnil
            have hsome : ((y :: ys).getLast?).isSome :=
              List.getLast?_isSome.mpr (by simp)
            rw [← hrec, hnil] at hsome
            simp at hsome
          rw [getLast?_cons_of_ne_nil x hne, hrec,
            getLast?_cons_of_ne_nil x (by simp : (y :: ys) ≠ [])]
      · rw [if_neg hc]
        rw [countX_cons_ne ms hc] at hle
        have hrec := ih (x :: vs) hv hle
        have hmne : ms ≠ [] := by
          intro hnil
          rw [hnil] at hle
          simp [countX] at hle
        have hne : applyMaskAux ms (x :: vs) ≠ [] := applyMaskAux_ne_nil hmne hv
        rw [getLast?_cons_of_ne_nil c hne, hrec]

theorem applyMaskAux_nil_mask (v : List Char) : applyMaskAux [] v = [] := by
  cases v <;> rfl

theorem applyMaskAux_filter_digits :
    ∀ (m v : List Char), (∀ c ∈ v, c.isDigit) →
      (∀ c ∈ m, c ≠ 'X' → ¬ (c.isDigit : Prop)) →
      (applyMaskAux m v).filter Char.isDigit = v.take (countX m) := by
  intro m
  induction m with
  | nil =>
    intro v _ _
    rw [applyMaskAux_nil_mask]
    simp [countX]
  | cons a ms ih =>
    intro v hv hm
    cases v with
    | nil =>
      rw [applyMaskAux_nil_value]
      simp
    | cons x vs =>
      rw [applyMaskAux]
      by_cases ha : a = 'X'
      · rw [if_pos ha]
        subst ha
        rw [countX_cons_X]
        have hx : x.isDigit := hv x (by simp)
        have hf : List.filter Char.isDigit (x :: applyMaskAux ms vs) =
            x :: List.filter Char.isDigit (applyMaskAux ms vs) := by
          simp [hx]
        rw [hf, ih vs (fun e he => hv e (by simp [he]))
          (fun e he hex => hm e (by simp [he]) hex), List.take_succ_cons]
      · rw [if_neg ha]
        rw [countX_cons_ne ms ha]
        have hand : ¬ (a.isDigit : Prop) := hm a (by simp) ha
        have hf : List.filter Char.isDigit (a :: applyMaskAux ms (x :: vs)) =
            List.filter Char.isDigit (applyMaskAux ms (x :: vs)) := by
          simp [hand]
        rw [hf, ih (x :: vs) hv (fun e he hex => hm e (by simp [he]) hex)]

/-- C4: applyMask walks the mask left to right, each placeholder X
consuming the next unused digit and every other mask character being
copied literally, and stops the instant the digits are exhausted, so
literals after the last consumed digit are never appended: an empty
digit string yields an empty result; when all digits are consumed
within the mask the result ends with the last digit (no trailing
literal); and the digits of the result are exactly the consumed prefix
of the input digits, in order. In particular
applyMask "12345" "XXX-XX" = "123-45" and
applyMask "123" "XXX-XX" = "123". -/
theorem c4_applyMask_consumes_digits :
    (∀ mask : String, applyMask "" mask = "") ∧
    (∀ value mask : String, value.data ≠ [] → value.data.length ≤ countX mask.data →
      (applyMask value mask).data.getLast? = value.data.getLast?) ∧
    (∀ value mask : String, (∀ c ∈ value.data, c.isDigit) →
      (∀ c ∈ mask.data, c ≠ 'X' → ¬ (c.isDigit : Prop)) →
      (applyMask value mask).data.filter Char.isDigit =
        value.data.take (countX mask.data)) ∧
    applyMask "12345" "XXX-XX" = "123-45" ∧
    applyMask "123" "XXX-XX" = "123" := by
  refine ⟨?_, ?_, ?_, by rfl, by rfl⟩
  · intro mask
    show String.mk (applyMaskAux mask.data []) = ""
    rw [applyMaskAux_nil_value]
  · intro value mask hv hle
    exact applyMaskAux_getLast? mask.data value.data hv hle
  · intro value mask hv hm
    exact applyMaskAux_filter_digits mask.data value.data hv hm

/-- Witness for C4 at the spec's instance 12345 / XXX-XX. -/
theorem c4_applyMask_consumes_digits_witness :
    (applyMask "12345" "XXX-XX").data.getLast? = ("12345" : String).data.getLast? ∧
    (applyMask "12345" "XXX-XX").data.filter Char.isDigit =
      ("12345" : String).data.take (countX ("XXX-XX" : String).data) :=
  ⟨c4_applyMask_consumes_digits.2.1 "12345" "XXX-XX" (by decide) (by decide),
   c4_applyMask_consumes_digits.2.2.1 "12345" "XXX-XX" (by decide) (by decide)⟩

theorem insertByPriority_perm (d : DocumentSpec) (l : List DocumentSpec) :
    List.Perm (insertByPriority d l) (d :: l) := by
  induction l with
  | nil => exact List.Perm.refl _
  | cons e es ih =>
    rw [insertByPriority]
    by_cases he : e.priority ≤ d.priority
    · rw [if_pos he]
      exact (ih.cons e).trans (List.Perm.swap d e es)
    · rw [if_neg he]

theorem sortByPriority_foldl_perm :
    ∀ (l acc : List DocumentSpec),
      List.Perm (l.foldl (fun acc d => insertByPriority d acc) acc) (acc ++ l) := by
  intro l
  induction l with
  | nil => intro acc; simp
  | cons d ds ih =>
    intro acc
    rw [List.foldl_cons]
    refine (ih (insertByPriority d acc)).trans ?_
    refine (List.Perm.append_right ds (insertByPriority_perm d acc)).trans ?_
    exact List.perm_middle.symm

theorem sortByPriority_perm (docs : List DocumentSpec) :
    List.Perm (sortByPriority docs) docs := by
  have h := sortByPriority_foldl_perm docs []
  simpa [sortByPriority] using h

theorem insertByPriority_pairwise (d : DocumentSpec) (l : List DocumentSpec)
    (h : l.Pairwise (fun a b => a.priority ≤ b.priority)) :
    (insertByPriority d l).Pairwise (fun a b => a.priority ≤ b.priority) := by
  induction l with
  | nil => simp [insertByPriority]
  | cons e es ih =>
    rw [insertByPriority]
    rcases List.pairwise_cons.mp h with ⟨he2, hes⟩
    by_cases he : e.priority ≤ d.priority
    · rw [if_pos he]
      refine List.pairwise_cons.mpr ⟨?_, ih hes⟩
      intro x hx
      have hx2 : x = d ∨ x ∈ es := by
        have := (insertByPriority_perm d es).mem_iff.mp hx
        simpa using this
      rcases hx2 with rfl | hxes
      · exact he
      · exact he2 x hxes
    · rw [if_neg he]
      refine List.pairwise_cons.mpr ⟨?_, h⟩
      intro x hx
      rcases List.mem_cons.mp hx with rfl | hxes
      · omega
      · have := he2 x hxes
        omega

theorem sortByPriority_foldl_pairwise :
    ∀ (l acc : List DocumentSpec),
      acc.Pairwise (fun a b => a.priority ≤ b.priority) →
      (l.foldl (fun acc d => insertByPriority d acc) acc).Pairwise
        (fun a b => a.priority ≤ b.priority) := by
  intro l
  induction l with
  | nil => intro acc h; simpa using h
  | cons d ds ih =>
    intro acc h
    rw [List.foldl_cons]
    exact ih _ (insertByPriority_pairwise d acc h)

theorem sortByPriority_pairwise (docs : List DocumentSpec) :
    (sortByPriority docs).Pairwise (fun a b => a.priority ≤ b.priority) :=
  sortByPriority_foldl_pairwise docs [] (by simp)

/-- C3: for every country document list (nonempty, as registered) and
every raw input string, the detector strips non-digits and sorts the
types ascending by priority (a stable sort, here shown sorted and a
permutation of the original list); with 0 digits it returns the first
type of the sorted order; otherwise it returns the first type in
priority order whose digit length is at least the digit count; and
when the digit count exceeds every type's length it returns the last
type. In particular for Brazil: 0 digits → cpf, 12 digits → cnpj,
20 digits → cnpj. -/
theorem c3_detect_document_type (docs : List DocumentSpec) (raw : String)
    (hne : docs ≠ []) :
    (sortByPriority docs).Pairwise (fun a b => a.priority ≤ b.priority) ∧
    List.Perm (sortByPriority docs) docs ∧
    ((stripDigits raw).length = 0 →
      detectDocumentType docs raw =
        (sortByPriority docs).head?.map (fun d => d.typeId)) ∧
    (∀ d, 0 < (stripDigits raw).length →
      (sortByPriority docs).find? (fun e => (stripDigits raw).length ≤ e.len) = some d →
      detectDocumentType docs raw = some d.typeId ∧
        (stripDigits raw).length ≤ d.len ∧ d ∈ docs) ∧
    (0 < (stripDigits raw).length → (∀ e ∈ docs, e.len < (stripDigits raw).length) →
      detectDocumentType docs raw =
        (sortByPriority docs).getLast?.map (fun d => d.typeId)) ∧
    detectDocumentType brDocuments "" = some "cpf" ∧
    detectDocumentType brDocuments "123456789012" = some "cnpj" ∧
    detectDocumentType brDocuments "12345678901234567890" = some "cnpj" := by
  have hperm := sortByPriority_perm docs
  have hpair := sortByPriority_pairwise docs
  refine ⟨hpair, hperm, ?_, ?_, ?_, by rfl, by rfl, by rfl⟩
  · intro h0
    unfold detectDocumentType
    cases hs : sortByPriority docs with
    | nil =>
      rw [hs] at hperm
      exact absurd hperm.symm.eq_nil hne
    | cons first rest =>
      dsimp only
      rw [if_pos h0]
      rfl
  · intro d hn hfind
    refine ⟨?_, ?_, ?_⟩
    · unfold detectDocumentType
      cases hs : sortByPriority docs with
      | nil =>
        rw [hs] at hperm
        exact absurd hperm.symm.eq_nil hne
      | cons first rest =>
        dsimp only
        rw [hs] at hfind
        rw [if_neg (by omega), hfind]
    · have hp := List.find?_some hfind
      simpa using hp
    · have hm := List.mem_of_find?_eq_some hfind
      exact hperm.mem_iff.mp hm
  · intro hn hall
    unfold detectDocumentType
    cases hs : sortByPriority docs with
    | nil =>
      rw [hs] at hperm
      exact absurd hperm.symm.eq_nil hne
    | cons first rest =>
      dsimp only
      rw [hs] at hperm
      have hfind : (first :: rest).find? (fun e => (stripDigits raw).length ≤ e.len) = none := by
        apply List.find?_eq_none.mpr
        intro x hx
        have hxm : x ∈ docs := hperm.mem_iff.mp hx
        have := hall x hxm
        simpa using by omega
      rw [if_neg (by omega), hfind]

/-- Witness for C3 at the Brazilian registry and a 12-digit value. -/
theorem c3_detect_document_type_witness :
    brDocuments ≠ [] ∧
    detectDocumentType brDocuments "123456789012" = some "cnpj" ∧
    detectDocumentType brDocuments "" = some "cpf" :=
  ⟨by decide,
   (c3_detect_document_type brDocuments "123456789012" (by decide)).2.2.2.2.2.2.1,
   (c3_detect_document_type brDocuments "" (by decide)).2.2.2.2.2.1⟩

theorem remapAux_spec (target : Nat) :
    ∀ (chars : List Char) (nf i : Nat), nf ≤ target →
      remapAux target chars i nf i =
        i + (nthDigitIndex chars (target - nf)).getD chars.length := by
  intro chars
  induction chars with
  | nil =>
    intro nf i _
    simp [remapAux, nthDigitIndex]
  | cons c rest ih =>
    intro nf i hnf
    rw [remapAux]
    by_cases hd : (c.isDigit : Prop)
    · rw [if_pos hd]
      by_cases hT : target < nf + 1
      · rw [if_pos hT]
        have h0 : target - nf = 0 := by omega
        simp [h0, nthDigitIndex, hd]
      · rw [if_neg hT]
        have h1 : nf + 1 ≤ target := by omega
        rw [ih (nf + 1) (i + 1) h1]
        have h2 : target - nf = (target - (nf + 1)) + 1 := by omega
        rw [h2]
        cases hnd : nthDigitIndex rest (target - (nf + 1)) with
        | none => simp [nthDigitIndex, hd, hnd]; omega
        | some j => simp [nthDigitIndex, hd, hnd]; omega
    · rw [if_neg hd]
      rw [ih nf (i + 1) hnf]
      cases hnd : nthDigitIndex rest (target - nf) with
      | none => simp [nthDigitIndex, hd, hnd]; omega
      | some j => simp [nthDigitIndex, hd, hnd]; omega

/-- C5 counterexample: on the spec's own instance — old formatted
"123.456", new formatted "123.456.7", old cursor at index 7 — the
cursor-remap function returns 8, not 9: the loop breaks on the digit
that exceeds the counted total before `newCursor` is advanced past
it, so the caret lands immediately before that digit. -/
theorem c5_cursor_remap_counterexample :
    calculateCursorPosition "123.456" "123.456.7" 7 = 8 ∧
    calculateCursorPosition "123.456" "123.456.7" 7 ≠ 9 :=
  ⟨by rfl, by decide⟩

/-- C5 (amended): for every old formatted string, new formatted string
and old cursor index, the cursor-remap function counts the digits
strictly before the old cursor index in the old string, then walks the
new string and returns the index of the first digit past that count —
the position immediately BEFORE the next digit (any literals between
the matching digit and the next digit are passed over), not
immediately after the matching digit — and the new string's length
when no such digit exists. On the spec's instance it therefore
returns 8, not 9. -/
theorem c5_cursor_remap_amended (oldValue newValue : String) (oldCursor : Nat) :
    calculateCursorPosition oldValue newValue oldCursor =
      (nthDigitIndex newValue.data
        (((oldValue.data.take oldCursor).filter Char.isDigit).length)).getD
        newValue.data.length ∧
    calculateCursorPosition "123.456" "123.456.7" 7 = 8 := by
  constructor
  · unfold calculateCursorPosition
    have h := remapAux_spec
      (((oldValue.data.take oldCursor).filter Char.isDigit).length)
      newValue.data 0 0 (Nat.zero_le _)
    simpa using h
  · rfl
